import Mathlib

/-!
Verification of the retrieval-fusion core of the ICH (intangible cultural
heritage) RAG engine (`rag_engine.py`).

The embedding below translates the Python source shallowly:

* Python strings are Lean `String`s; the Python substring test `a in b`
  becomes `strIn a b` (contiguous-sublist containment on the character
  lists).
* Python floats carrying similarity scores are modelled as exact rationals
  `ℚ`; the L2-normalising embedding model is an injected capability
  `String → List ℚ` assumed (by explicit hypothesis where needed) to
  produce unit-norm vectors.
* Fallible Python calls are modelled with `Except PyError`;
  an uncaught `AttributeError` from dereferencing `None` is the
  constructor `PyError.attributeError`.
* Neo4j is modelled as an in-memory property graph (`GraphDB`); a Cypher
  row is a record of `Option PyVal` fields where an absent key is `none`
  and a present-but-null value is `some PyVal.none`, matching the
  semantics of `dict.get` with a default in the Python renderers.
-/

namespace RagSpec

/-- Python substring test `needle in haystack` on strings: contiguous
containment of the code-point list. -/
def strIn (needle haystack : String) : Bool :=
  decide (needle.toList <:+: haystack.toList)

/-- The fixed category → keywords table `self.category_keywords`,
in insertion order of the Python dict literal. -/
def category_keywords : List (String × List String) :=
  [ ("民间文学", ["传说", "故事", "歌谣", "史诗", "神话", "谚语", "童谣"]),
    ("传统音乐", ["音乐", "民歌", "号子", "曲艺", "器乐", "古琴", "唢呐"]),
    ("传统舞蹈", ["舞蹈", "龙舞", "狮舞", "秧歌", "傩舞", "花鼓"]),
    ("传统戏剧", ["戏剧", "京剧", "昆曲", "越剧", "皮影戏", "木偶"]),
    ("曲艺", ["曲艺", "相声", "评书", "大鼓", "快板"]),
    ("传统美术", ["美术", "剪纸", "年画", "刺绣", "雕刻", "泥塑"]),
    ("传统技艺", ["技艺", "织造", "酿造", "制茶", "制瓷", "铸造"]),
    ("传统医药", ["医药", "中医", "针灸", "推拿", "药物"]),
    ("民俗", ["民俗", "节日", "习俗", "祭祀", "婚俗"]) ]

/-- The fixed province list used by the region check of
`_extract_query_intent`. -/
def provinces : List String :=
  [ "北京", "天津", "河北", "山西", "内蒙古", "辽宁", "吉林", "黑龙江",
    "上海", "江苏", "浙江", "安徽", "福建", "江西", "山东", "河南",
    "湖北", "湖南", "广东", "广西", "海南", "重庆", "四川", "贵州",
    "云南", "西藏", "陕西", "甘肃", "青海", "宁夏", "新疆" ]

/-- The result of `_extract_query_intent`: the dict
`{type: name|category|region, keyword}` as a tagged value. -/
inductive QueryIntent where
  | byName (keyword : String)
  | byCategory (keyword : String)
  | byRegion (keyword : String)
deriving DecidableEq, Repr

/-- The category scan of `_extract_query_intent`: for each
`(category, keywords)` entry in table order, return the category if the
category name is a substring of the query, else if some keyword of the
entry is; otherwise move to the next entry. -/
def matchCategory (query : String) : List (String × List String) → Option String
  | [] => none
  | (cat, kws) :: rest =>
    if strIn cat query then some cat
    else if kws.any (fun kw => strIn kw query) then some cat
    else matchCategory query rest

/-- The province scan of `_extract_query_intent`: first province that is a
substring of the query. -/
def matchProvince (query : String) : List String → Option String
  | [] => none
  | p :: rest => if strIn p query then some p else matchProvince query rest

/-- `ICHRAGEngine._extract_query_intent`: category scan first, then
region scan, defaulting to a by-name lookup with the raw query. -/
def extractQueryIntent (query : String) : QueryIntent :=
  match matchCategory query category_keywords with
  | some cat => .byCategory cat
  | none =>
    match matchProvince query provinces with
    | some p => .byRegion p
    | none => .byName query

/-- A table entry hits the query when its category name or one of its
keywords occurs in the query. -/
def entryHits (query : String) (e : String × List String) : Bool :=
  strIn e.1 query || e.2.any (fun kw => strIn kw query)

example : strIn "剪纸" "北京的剪纸技艺" = true := by decide

example : extractQueryIntent "北京的剪纸技艺" = .byCategory "传统美术" := by decide

example : extractQueryIntent "云南有什么" = .byRegion "云南" := by decide

example : extractQueryIntent "hello" = .byName "hello" := by decide

/-! ## Python-side values and errors -/

/-- A Python value sitting in a Neo4j result row: either `None` or a
string. -/
inductive PyVal where
  | none
  | str (s : String)
deriving DecidableEq, Repr

/-- Rendering of a `PyVal` by a Python f-string (`str(None) = "None"`). -/
def PyVal.toStr : PyVal → String
  | .none => "None"
  | .str s => s

/-- `dict.get(key, default)`: a record field is `Option PyVal`, where
`Option.none` is an absent key (the default applies) and `some v` is a
present key (the default does not apply even when `v` is Python
`None`). -/
def dictGet (field : Option PyVal) (dflt : String) : PyVal :=
  field.getD (.str dflt)

/-- Python exceptions that the modelled code can surface. -/
inductive PyError where
  | attributeError (msg : String)
  | serviceUnavailable (msg : String)
  | exceptionRaised (msg : String)
deriving DecidableEq, Repr

/-- Whether an error is a deliberate service-unavailable signal (as
opposed to an unchecked fault such as an `AttributeError` from
dereferencing `None`). -/
def PyError.isServiceUnavailable : PyError → Bool
  | .serviceUnavailable _ => true
  | _ => false

/-! ## Graph store adapter (`Neo4jKnowledgeGraph`) -/

/-- An `Item` node of the property graph together with its (at most one
each) outgoing `属于`/`申报于`/`由保护单位` relations.  `name` and `nameZh`
are the two name properties (`item.name`, `item.名称`) the Cypher of
`query_by_name` tests; each property may be absent. -/
structure ItemNode where
  name : Option String
  nameZh : Option String
  category : Option String
  region : Option String
  org : Option String
deriving DecidableEq, Repr

/-- The reachable graph database: the `Item` nodes in storage order plus
the standalone node sets counted by `get_statistics`. -/
structure GraphDB where
  items : List ItemNode
  categoryNodes : List String
  regionNodes : List String
  orgNodes : List String
deriving DecidableEq, Repr

/-- The adapter state: `driver` is `none` after a failed connection
attempt (the constructor catches the connection error and only logs). -/
structure Neo4jKnowledgeGraph where
  driver : Option GraphDB
deriving Repr

/-- `Neo4jKnowledgeGraph.__init__`: a reachable store yields a live
driver; an unreachable store is caught and logged, leaving
`driver = None` — construction itself never raises. -/
def mkKnowledgeGraph (conn : Option GraphDB) : Neo4jKnowledgeGraph :=
  { driver := conn }

/-- Cypher `prop CONTAINS $needle` where `prop` may be an absent
property: an absent property compares as null, hence does not match. -/
def optContains (prop : Option String) (needle : String) : Bool :=
  match prop with
  | Option.none => false
  | some s => strIn needle s

/-- A row of `query_by_name`/`query_by_category`/`query_by_region`
results: the Python dict with up to four keys (`名称` = `rName`,
`类别` = `rCategory`, `申报地区` = `rRegion`, `保护单位` = `rOrg`).  An
`Option.none` field is an absent key; `some PyVal.none` is a key carrying
Python `None` (an `OPTIONAL MATCH` that found nothing). -/
structure KgRecord where
  rName : Option PyVal
  rCategory : Option PyVal
  rRegion : Option PyVal
  rOrg : Option PyVal
deriving DecidableEq, Repr

/-- Lift an optional node property to the row value produced by
`RETURN item.prop AS key` (key present, value null when absent). -/
def propVal (p : Option String) : PyVal :=
  match p with
  | Option.none => .none
  | some s => .str s

/-- The match predicate of `query_by_name`:
`item.name CONTAINS $name OR item.名称 CONTAINS $name`. -/
def nameMatches (name : String) (it : ItemNode) : Bool :=
  optContains it.name name || optContains it.nameZh name

/-- `Neo4jKnowledgeGraph.query_by_name`: on a disconnected driver the
Python `self.driver.session()` raises an `AttributeError`; otherwise the
Cypher filters items by substring containment on either name property,
truncates to 10 rows (`LIMIT 10`) and projects
`名称/类别/申报地区/保护单位`. -/
def query_by_name (kg : Neo4jKnowledgeGraph) (name : String) :
    Except PyError (List KgRecord) :=
  match kg.driver with
  | Option.none => .error (.attributeError "NoneType object has no attribute session")
  | some db =>
    .ok (((db.items.filter (nameMatches name)).take 10).map fun it =>
      { rName := some (propVal it.name), rCategory := some (propVal it.category),
        rRegion := some (propVal it.region), rOrg := some (propVal it.org) })

/-- `Neo4jKnowledgeGraph.query_by_category`: exact match on the category
node name (`Category {name: $category}`), truncated to 20 rows, projecting
only `名称` and `申报地区` (the other keys are absent from the row). -/
def query_by_category (kg : Neo4jKnowledgeGraph) (category : String) :
    Except PyError (List KgRecord) :=
  match kg.driver with
  | Option.none => .error (.attributeError "NoneType object has no attribute session")
  | some db =>
    .ok (((db.items.filter (fun it => it.category == some category)).take 20).map fun it =>
      { rName := some (propVal it.name), rCategory := Option.none,
        rRegion := some (propVal it.region), rOrg := Option.none })

/-- `Neo4jKnowledgeGraph.query_by_region`: substring containment on the
region node name (`r.name CONTAINS $region`, a non-optional match, so the
item must have a region), truncated to 20 rows, projecting
`名称/类别/申报地区`. -/
def query_by_region (kg : Neo4jKnowledgeGraph) (region : String) :
    Except PyError (List KgRecord) :=
  match kg.driver with
  | Option.none => .error (.attributeError "NoneType object has no attribute session")
  | some db =>
    .ok (((db.items.filter (fun it => optContains it.region region)).take 20).map fun it =>
      { rName := some (propVal it.name), rCategory := some (propVal it.category),
        rRegion := some (propVal it.region), rOrg := Option.none })

/-- The four count aggregates of `get_statistics`. -/
structure KgStats where
  total_items : Nat
  total_categories : Nat
  total_regions : Nat
  total_orgs : Nat
deriving DecidableEq, Repr

/-- `Neo4jKnowledgeGraph.get_statistics`: the four node-count queries, or
an `AttributeError` on a disconnected driver. -/
def get_statistics (kg : Neo4jKnowledgeGraph) : Except PyError KgStats :=
  match kg.driver with
  | Option.none => .error (.attributeError "NoneType object has no attribute session")
  | some db =>
    .ok { total_items := db.items.length, total_categories := db.categoryNodes.length,
          total_regions := db.regionNodes.length, total_orgs := db.orgNodes.length }

/-- `Neo4jKnowledgeGraph.get_category_distribution`: per category node
with at least one item, the item count, sorted descending by count; or an
`AttributeError` on a disconnected driver. -/
def get_category_distribution (kg : Neo4jKnowledgeGraph) :
    Except PyError (List (String × Nat)) :=
  match kg.driver with
  | Option.none => .error (.attributeError "NoneType object has no attribute session")
  | some db =>
    let counted := (db.categoryNodes.map fun c =>
      (c, (db.items.filter (fun it => it.category == some c)).length)).filter
        (fun p => decide (0 < p.2))
    .ok (counted.insertionSort fun a b => b.2 ≤ a.2)

/-! ## Similarity index (`VectorRetriever` over FAISS `IndexFlatIP`) -/

/-- A retrievable text unit: `{title, content}` (the metadata mapping is
not consulted by the engine). -/
structure Document where
  title : String
  content : String
deriving DecidableEq, Repr

instance : Inhabited Document := ⟨⟨"", ""⟩⟩

/-- Inner product of two embedding vectors. -/
def dot (x y : List ℚ) : ℚ :=
  (List.zipWith (· * ·) x y).sum

theorem dot_nil_left (y : List ℚ) : dot [] y = 0 := rfl

theorem dot_nil_right (x : List ℚ) : dot x [] = 0 := by cases x <;> rfl

theorem dot_cons_cons (a b : ℚ) (x y : List ℚ) :
    dot (a :: x) (b :: y) = a * b + dot x y := by
  simp [dot, List.zipWith]

theorem dot_self_nonneg (x : List ℚ) : 0 ≤ dot x x := by
  induction x with
  | nil => simp [dot_nil_left]
  | cons a x ih => rw [dot_cons_cons]; nlinarith [mul_self_nonneg a]

/-- Cauchy–Schwarz for the list inner product. -/
theorem dot_sq_le (x y : List ℚ) : (dot x y) ^ 2 ≤ dot x x * dot y y := by
  induction x generalizing y with
  | nil => simp [dot_nil_left]
  | cons a x ih =>
    cases y with
    | nil => simp [dot_nil_right]
    | cons b y =>
      have h1 := ih y
      have hx := dot_self_nonneg x
      have hy := dot_self_nonneg y
      rw [dot_cons_cons, dot_cons_cons, dot_cons_cons]
      rcases eq_or_lt_of_le hx with hx0 | hxpos
      · have hD : dot x y = 0 := by nlinarith [sq_nonneg (dot x y)]
        rw [hD, ← hx0]
        nlinarith [mul_nonneg (mul_self_nonneg a) hy]
      · have key : (2 * a * b * dot x y) * dot x x ≤
            (a ^ 2 * dot y y + b ^ 2 * dot x x) * dot x x := by
          nlinarith [sq_nonneg (a * dot x y - b * dot x x),
                     mul_le_mul_of_nonneg_left h1 (sq_nonneg a)]
        have h2 : 2 * a * b * dot x y ≤ a ^ 2 * dot y y + b ^ 2 * dot x x :=
          le_of_mul_le_mul_right key hxpos
        nlinarith [h1, h2]

/-- On unit-norm vectors the inner product lies in `[-1, 1]`. -/
theorem dot_mem_unit (x y : List ℚ) (hx : dot x x = 1) (hy : dot y y = 1) :
    -1 ≤ dot x y ∧ dot x y ≤ 1 := by
  have h := dot_sq_le x y
  rw [hx, hy] at h
  exact abs_le.mp ((sq_le_one_iff_abs_le_one (dot x y)).mp (by simpa using h))

/-- The in-memory FAISS `IndexFlatIP`: the stored vectors in build order
(positional id = build order).  `faiss.normalize_L2` runs before `add`,
so the stored vectors are the normalised embeddings. -/
structure FaissIndexFlatIP where
  vectors : List (List ℚ)

/-- Descending-score order on FAISS result entries. -/
def scoreGE (a b : Int × ℚ) : Prop := b.2 ≤ a.2

instance : DecidableRel scoreGE := fun a b => inferInstanceAs (Decidable (b.2 ≤ a.2))

instance : IsTotal (Int × ℚ) scoreGE := ⟨fun a b => le_total b.2 a.2⟩

instance : IsTrans (Int × ℚ) scoreGE := ⟨fun _ _ _ h1 h2 => le_trans h2 h1⟩

/-- The largest finite IEEE single-precision value; FAISS initialises its
inner-product result heaps with `-FLT_MAX`, which is what the padding
entries of a search over fewer than `k` stored vectors carry. -/
def FLT_MAX : ℚ := 340282346638528859811704183484516925440

/-- Every stored vector paired with its positional label and its inner
product against the query vector. -/
def scoredOf (idx : FaissIndexFlatIP) (q : List ℚ) : List (Int × ℚ) :=
  (List.range idx.vectors.length).map fun (i : Nat) =>
    ((i : Int), dot q (idx.vectors.getD i []))

/-- `faiss.IndexFlatIP.search` on one query vector: score every stored
vector by inner product with the query, order by descending score (stable
on ties), keep the best `k`, and — exactly as FAISS does when the index
holds fewer than `k` vectors — pad the result up to length `k` with
entries carrying label `-1` and score `-FLT_MAX`. -/
def faissSearch (idx : FaissIndexFlatIP) (q : List ℚ) (k : Nat) :
    List (Int × ℚ) :=
  let hits := ((scoredOf idx q).insertionSort scoreGE).take k
  hits ++ List.replicate (k - hits.length) ((-1 : Int), -FLT_MAX)

/-- Python list subscription with a possibly negative index, as in
`self.documents[idx]` where `idx` is an int64 from FAISS: a negative
index counts from the end of the list. -/
def pyGet (docs : List Document) (i : Int) : Document :=
  if i < 0 then docs.getD (docs.length - (-i).toNat) default
  else docs.getD i.toNat default

/-- The retriever state: `index` is `None` until an index is built or
loaded; `embedModel` is the injected (already L2-normalising) sentence
embedding, `None` when the model failed to load. -/
structure VectorRetriever where
  index : Option FaissIndexFlatIP
  documents : List Document
  embedModel : Option (String → List ℚ)

/-- `VectorRetriever.search`: empty without an index or a model;
otherwise run the FAISS search and keep, in order, every `(score, idx)`
pair whose label passes the Python guard `idx < len(self.documents)` —
note the FAISS padding label `-1` passes this guard and subscripts the
document list from the end. -/
def VectorRetriever.search (r : VectorRetriever) (query : String)
    (top_k : Nat) : List (Document × ℚ) :=
  match r.index, r.embedModel with
  | some idx, some embed =>
    ((faissSearch idx (embed query) top_k).filter
        (fun p => decide (p.1 < (r.documents.length : Int)))).map
      fun p => (pyGet r.documents p.1, p.2)
  | _, _ => []

example :
    VectorRetriever.search
      { index := some ⟨[[(3 : ℚ)/5, 4/5]]⟩,
        documents := [⟨"t", "c"⟩],
        embedModel := some fun _ => [(3 : ℚ)/5, 4/5] }
      "q" 3 =
      [(⟨"t", "c"⟩, 1), (⟨"t", "c"⟩, -FLT_MAX), (⟨"t", "c"⟩, -FLT_MAX)] := by
  norm_num [VectorRetriever.search, faissSearch, scoredOf, dot, pyGet,
    List.insertionSort, List.orderedInsert, List.range_succ, List.filter,
    List.replicate, FLT_MAX]

/-! ## Retrieval fusion engine (`ICHRAGEngine`) -/

/-- The engine: the graph adapter and the vector retriever (the category
keyword table is the global `category_keywords`). -/
structure ICHRAGEngine where
  kg : Neo4jKnowledgeGraph
  retriever : VectorRetriever

/-- The dict returned by `ICHRAGEngine.retrieve`. -/
structure RetrievalResult where
  intent : QueryIntent
  kg_results : List KgRecord
  vector_results : List (Document × ℚ)

/-- `ICHRAGEngine.retrieve`: classify the query, dispatch the one graph
lookup selected by the intent tag with the classified keyword, run the
similarity search with `top_k = 3` on the raw query, and package the
three pieces.  A graph-side exception (e.g. the disconnected-driver
`AttributeError`) propagates. -/
def ICHRAGEngine.retrieve (e : ICHRAGEngine) (query : String) :
    Except PyError RetrievalResult := do
  let intent := extractQueryIntent query
  let kgRes ← match intent with
    | .byCategory kw => query_by_category e.kg kw
    | .byRegion kw => query_by_region e.kg kw
    | .byName kw => query_by_name e.kg kw
  let vecRes := e.retriever.search query 3
  return { intent := intent, kg_results := kgRes, vector_results := vecRes }

/-- The knowledge-graph section of `generate_context`: empty when there
are no graph rows, else a header line followed by one bullet per row for
the first 5 rows. -/
def kgContextParts (kgs : List KgRecord) : List String :=
  if kgs.isEmpty then []
  else "【知识图谱信息】" ::
    (kgs.take 5).map fun item =>
      "- " ++ (dictGet item.rName "").toStr ++ ": 类别=" ++
        (dictGet item.rCategory "未知").toStr ++ "，地区=" ++
        (dictGet item.rRegion "未知").toStr

/-- The bullet line rendered for one vector hit above the similarity
threshold. -/
def vecBullet (p : Document × ℚ) : String :=
  "- " ++ p.1.title ++ ": " ++ p.1.content.take 500 ++ "..."

/-- The related-documents section of `generate_context`: empty when the
vector result list is empty, else the section header followed by a bullet
for each hit whose score exceeds the 0.5 threshold — the header is
appended before the per-hit threshold test. -/
def vecContextParts (vecs : List (Document × ℚ)) : List String :=
  if vecs.isEmpty then []
  else "\n【相关文档】" ::
    vecs.filterMap fun p => if (1 : ℚ)/2 < p.2 then some (vecBullet p) else none

/-- `ICHRAGEngine.generate_context`: the two sections joined with
newlines. -/
def generate_context (retrieval : RetrievalResult) : String :=
  String.intercalate "\n"
    (kgContextParts retrieval.kg_results ++ vecContextParts retrieval.vector_results)

/-- The fixed prompt template of `ICHRAGEngine.answer`. -/
def promptTemplate (context query : String) : String :=
  "你是一位中国非物质文化遗产专家，请根据以下参考信息回答用户问题。\n\n参考信息：\n"
    ++ context ++ "\n\n用户问题：" ++ query
    ++ "\n\n请给出准确、专业的回答，如果参考信息不足，请诚实说明。"

/-- The fixed apology string of the generation-failure handler. -/
def apologyMessage : String := "抱歉，生成回答时出现错误。"

/-- The fixed not-found message, naming the query. -/
def notFoundMessage (query : String) : String :=
  "抱歉，未找到与\x27" ++ query ++ "\x27相关的非遗信息。"

/-- The dict returned by `ICHRAGEngine.answer`. -/
structure AnswerResult where
  answer : String
  sources : List PyVal
  retrieval : RetrievalResult

/-- The sources list of `ICHRAGEngine.answer`:
a list comprehension over the first 5 graph rows taking the 名称 key
with default empty string. -/
def sourcesOf (kgs : List KgRecord) : List PyVal :=
  (kgs.take 5).map fun item => dictGet item.rName ""

/-- The post-retrieval part of `ICHRAGEngine.answer`: given the packaged
retrieval result, either assemble the structured no-LLM answer, or build
the prompt, invoke the generation callback and catch any exception it
raises, converting it to the fixed apology. -/
def composeAnswer (query : String) (retrieval : RetrievalResult)
    (llm_func : Option (String → Except PyError String)) :
    Except PyError AnswerResult :=
  match llm_func with
  | Option.none =>
    if retrieval.kg_results.isEmpty && retrieval.vector_results.isEmpty then
      .ok { answer := notFoundMessage query, sources := [], retrieval := retrieval }
    else
      let answer_parts : List String :=
        if retrieval.kg_results.isEmpty then []
        else ("找到 " ++ toString retrieval.kg_results.length ++ " 个相关非遗项目：") ::
          (retrieval.kg_results.take 5).map fun item =>
            "• **" ++ (dictGet item.rName "").toStr ++ "** (" ++
              (dictGet item.rCategory "").toStr ++ ")"
      .ok { answer := String.intercalate "\n" answer_parts,
            sources := sourcesOf retrieval.kg_results, retrieval := retrieval }
  | some f =>
    match f (promptTemplate (generate_context retrieval) query) with
    | .ok a =>
      .ok { answer := a, sources := sourcesOf retrieval.kg_results, retrieval := retrieval }
    | .error _ =>
      .ok { answer := apologyMessage, sources := [], retrieval := retrieval }

/-- `ICHRAGEngine.answer`: retrieve, then compose. -/
def ICHRAGEngine.answer (e : ICHRAGEngine) (query : String)
    (llm_func : Option (String → Except PyError String)) :
    Except PyError AnswerResult := do
  let retrieval ← e.retrieve query
  composeAnswer query retrieval llm_func

/-! ## Supporting lemmas -/

theorem matchCategory_eq_none (query : String) (l : List (String × List String))
    (h : ∀ e ∈ l, entryHits query e = false) :
    matchCategory query l = Option.none := by
  induction l with
  | nil => rfl
  | cons e rest ih =>
    obtain ⟨cat, kws⟩ := e
    have he := h (cat, kws) (List.mem_cons_self _ _)
    simp only [entryHits, Bool.or_eq_false_iff] at he
    rw [matchCategory]
    simp [he.1, he.2, ih fun x hx => h x (List.mem_cons_of_mem _ hx)]

theorem matchProvince_eq_none (query : String) (l : List String)
    (h : ∀ p ∈ l, strIn p query = false) :
    matchProvince query l = Option.none := by
  induction l with
  | nil => rfl
  | cons p rest ih =>
    rw [matchProvince]
    simp [h p (List.mem_cons_self _ _), ih fun x hx => h x (List.mem_cons_of_mem _ hx)]

/-! ## Claims -/

/-- **C7**: for every query whose retrieval yields empty graph results and
empty vector results, composing the answer without a generation callback
returns the fixed not-found message naming the query and an empty sources
list. -/
theorem c7_emptyRetrievalNotFound (query : String) (r : RetrievalResult)
    (hkg : r.kg_results = []) (hvec : r.vector_results = []) :
    composeAnswer query r Option.none =
      .ok { answer := notFoundMessage query, sources := [], retrieval := r } := by
  simp [composeAnswer, hkg, hvec]

def c7Retrieval : RetrievalResult :=
  { intent := .byName "量子计算", kg_results := [], vector_results := [] }

theorem c7_witness :
    composeAnswer "量子计算" c7Retrieval Option.none =
      .ok { answer := notFoundMessage "量子计算", sources := [],
            retrieval := c7Retrieval } :=
  c7_emptyRetrievalNotFound "量子计算" c7Retrieval rfl rfl

/-- **C10**: for every query whose retrieval yields empty graph results
but a non-empty vector-result list, composing the answer without a
generation callback returns the empty string as the answer (neither the
not-found message nor any vector-derived content) and an empty sources
list. -/
theorem c10_emptyGraphEmptyAnswer (query : String) (r : RetrievalResult)
    (hkg : r.kg_results = []) (hvec : r.vector_results ≠ []) :
    composeAnswer query r Option.none =
      .ok { answer := "", sources := [], retrieval := r } := by
  have h2 : r.vector_results.isEmpty = false := by
    simpa [List.isEmpty_iff] using hvec
  simp [composeAnswer, hkg, h2, sourcesOf]
  rfl

def c10Retrieval : RetrievalResult :=
  { intent := .byName "凤阳花鼓简介", kg_results := [],
    vector_results := [(⟨"凤阳花鼓", "安徽凤阳民间舞蹈"⟩, (7 : ℚ)/10)] }

theorem c10_witness :
    composeAnswer "凤阳花鼓简介" c10Retrieval Option.none =
      .ok { answer := "", sources := [], retrieval := c10Retrieval } :=
  c10_emptyGraphEmptyAnswer "凤阳花鼓简介" c10Retrieval rfl (by simp [c10Retrieval])

/-- **C6**: for every retrieval result and every generation callback that
raises on any prompt, the answer composer catches the exception and
returns the fixed apology string with an empty sources list; the
exception is never propagated (the overall call still returns `.ok`). -/
theorem c6_generationFailureCaught (query : String) (r : RetrievalResult)
    (f : String → Except PyError String)
    (hf : ∀ p, ∃ e, f p = .error e) :
    composeAnswer query r (some f) =
      .ok { answer := apologyMessage, sources := [], retrieval := r } := by
  obtain ⟨e, he⟩ := hf (promptTemplate (generate_context r) query)
  simp [composeAnswer, he]

def c6Retrieval : RetrievalResult :=
  { intent := .byCategory "传统舞蹈",
    kg_results := [{ rName := some (.str "狮舞"), rCategory := Option.none,
                     rRegion := some (.str "广东省"), rOrg := Option.none }],
    vector_results := [] }

theorem c6_witness :
    composeAnswer "狮舞介绍" c6Retrieval
        (some fun _ => .error (.exceptionRaised "API调用失败")) =
      .ok { answer := apologyMessage, sources := [], retrieval := c6Retrieval } :=
  c6_generationFailureCaught "狮舞介绍" c6Retrieval _ fun _ => ⟨_, rfl⟩

/-- **C8**: for every query containing no category name, no category
keyword and no province name, classification returns `byName` with the
raw query as the keyword (and, being a total Lean function, it always
returns a value and is side-effect-free). -/
theorem c8_fallbackByName (query : String)
    (hcat : ∀ e ∈ category_keywords, entryHits query e = false)
    (hprov : ∀ p ∈ provinces, strIn p query = false) :
    extractQueryIntent query = .byName query := by
  rw [extractQueryIntent, matchCategory_eq_none query _ hcat,
      matchProvince_eq_none query _ hprov]

theorem c8_witness :
    extractQueryIntent "hello world" = .byName "hello world" :=
  c8_fallbackByName "hello world" (by decide) (by decide)

/-- **C2**: for every query hitting some entry of the category-keyword
table (by category name or keyword) all of whose earlier entries miss,
classification returns `byCategory` with the category of that entry — the
first matching entry in table insertion order wins, and the region check
is never reached (so a query also containing a province name still
classifies by category). -/
theorem c2_categoryFirstMatchWins (query : String)
    (pre post : List (String × List String)) (e : String × List String)
    (hsplit : category_keywords = pre ++ e :: post)
    (hmiss : ∀ x ∈ pre, entryHits query x = false)
    (hhit : entryHits query e = true) :
    extractQueryIntent query = .byCategory e.1 := by
  have key : ∀ (l1 : List (String × List String)),
      (∀ x ∈ l1, entryHits query x = false) →
      matchCategory query (l1 ++ e :: post) = some e.1 := by
    intro l1 hl1
    induction l1 with
    | nil =>
      obtain ⟨cat, kws⟩ := e
      simp only [entryHits, Bool.or_eq_true] at hhit
      rw [List.nil_append, matchCategory]
      rcases hhit with h | h
      · simp [h]
      · by_cases hc : strIn cat query <;> simp [hc, h]
    | cons x rest ih =>
      obtain ⟨cat, kws⟩ := x
      have hx := hl1 (cat, kws) (List.mem_cons_self _ _)
      simp only [entryHits, Bool.or_eq_false_iff] at hx
      rw [List.cons_append, matchCategory]
      simp [hx.1, hx.2, ih fun y hy => hl1 y (List.mem_cons_of_mem _ hy)]
  rw [extractQueryIntent, hsplit, key pre hmiss]

theorem c2_witness :
    extractQueryIntent "北京的剪纸技艺" = .byCategory "传统美术" ∧
    strIn "北京" "北京的剪纸技艺" = true ∧ "北京" ∈ provinces :=
  ⟨c2_categoryFirstMatchWins "北京的剪纸技艺"
      [ ("民间文学", ["传说", "故事", "歌谣", "史诗", "神话", "谚语", "童谣"]),
        ("传统音乐", ["音乐", "民歌", "号子", "曲艺", "器乐", "古琴", "唢呐"]),
        ("传统舞蹈", ["舞蹈", "龙舞", "狮舞", "秧歌", "傩舞", "花鼓"]),
        ("传统戏剧", ["戏剧", "京剧", "昆曲", "越剧", "皮影戏", "木偶"]),
        ("曲艺", ["曲艺", "相声", "评书", "大鼓", "快板"]) ]
      [ ("传统技艺", ["技艺", "织造", "酿造", "制茶", "制瓷", "铸造"]),
        ("传统医药", ["医药", "中医", "针灸", "推拿", "药物"]),
        ("民俗", ["民俗", "节日", "习俗", "祭祀", "婚俗"]) ]
      ("传统美术", ["美术", "剪纸", "年画", "刺绣", "雕刻", "泥塑"])
      (by decide) (by decide) (by decide),
    by decide, by decide⟩

/-- **C3 counterexample**: on the adapter left disconnected by a failed
construction, `query_by_name` fails with the unchecked `AttributeError`
from dereferencing the absent driver — not with a ServiceUnavailable
condition, contrary to the claim. -/
theorem c3_counterexample :
    query_by_name (mkKnowledgeGraph Option.none) "苗族古歌" =
      .error (.attributeError "NoneType object has no attribute session") ∧
    PyError.isServiceUnavailable
      (.attributeError "NoneType object has no attribute session") = false :=
  ⟨rfl, rfl⟩

/-- **C3 amended**: construction with an unreachable store silently
enters the disconnected state (`driver = None`) without raising, and
every subsequent read operation, instead of detecting that state and
failing with a ServiceUnavailable condition, raises the unchecked
`AttributeError` of a `None` dereference; availability checking is left
to the callers. -/
theorem c3_amended (name category region : String) :
    (mkKnowledgeGraph Option.none).driver = Option.none ∧
    (∃ m, query_by_name (mkKnowledgeGraph Option.none) name =
      .error (.attributeError m)) ∧
    (∃ m, query_by_category (mkKnowledgeGraph Option.none) category =
      .error (.attributeError m)) ∧
    (∃ m, query_by_region (mkKnowledgeGraph Option.none) region =
      .error (.attributeError m)) ∧
    (∃ m, get_statistics (mkKnowledgeGraph Option.none) =
      .error (.attributeError m)) ∧
    (∃ m, get_category_distribution (mkKnowledgeGraph Option.none) =
      .error (.attributeError m)) :=
  ⟨rfl, ⟨_, rfl⟩, ⟨_, rfl⟩, ⟨_, rfl⟩, ⟨_, rfl⟩, ⟨_, rfl⟩⟩

/-- **C5**: on a connected engine, `retrieve` classifies the query,
dispatches exactly the one graph lookup selected by the intent tag with
the classified keyword, independently runs the similarity search with
`top_k = 3` on the raw query, and packages intent, graph rows and vector
hits into an `.ok` result — in particular an empty result from either
sub-lookup is still an `.ok`, never an exception. -/
theorem c5_retrieveDispatch (e : ICHRAGEngine) (db : GraphDB) (query : String)
    (hconn : e.kg.driver = some db) :
    ∃ res : RetrievalResult,
      e.retrieve query = .ok res ∧
      res.intent = extractQueryIntent query ∧
      res.vector_results = e.retriever.search query 3 ∧
      (∀ kw, extractQueryIntent query = .byCategory kw →
        query_by_category e.kg kw = .ok res.kg_results) ∧
      (∀ kw, extractQueryIntent query = .byRegion kw →
        query_by_region e.kg kw = .ok res.kg_results) ∧
      (∀ kw, extractQueryIntent query = .byName kw →
        query_by_name e.kg kw = .ok res.kg_results) := by
  cases h : extractQueryIntent query with
  | byName kw =>
    obtain ⟨rows, hrows⟩ : ∃ rows, query_by_name e.kg kw = .ok rows := by
      simp [query_by_name, hconn]
    refine ⟨⟨.byName kw, rows, e.retriever.search query 3⟩, ?_, rfl, rfl, ?_, ?_, ?_⟩
    · simp [ICHRAGEngine.retrieve, h, hrows]
    · intro kw2 hk; cases hk
    · intro kw2 hk; cases hk
    · intro kw2 hk; cases hk; exact hrows
  | byCategory kw =>
    obtain ⟨rows, hrows⟩ : ∃ rows, query_by_category e.kg kw = .ok rows := by
      simp [query_by_category, hconn]
    refine ⟨⟨.byCategory kw, rows, e.retriever.search query 3⟩, ?_, rfl, rfl, ?_, ?_, ?_⟩
    · simp [ICHRAGEngine.retrieve, h, hrows]
    · intro kw2 hk; cases hk; exact hrows
    · intro kw2 hk; cases hk
    · intro kw2 hk; cases hk
  | byRegion kw =>
    obtain ⟨rows, hrows⟩ : ∃ rows, query_by_region e.kg kw = .ok rows := by
      simp [query_by_region, hconn]
    refine ⟨⟨.byRegion kw, rows, e.retriever.search query 3⟩, ?_, rfl, rfl, ?_, ?_, ?_⟩
    · simp [ICHRAGEngine.retrieve, h, hrows]
    · intro kw2 hk; cases hk
    · intro kw2 hk; cases hk; exact hrows
    · intro kw2 hk; cases hk

def c5Engine : ICHRAGEngine :=
  { kg := mkKnowledgeGraph (some ⟨[], [], [], []⟩),
    retriever := { index := Option.none, documents := [], embedModel := Option.none } }

theorem c5_witness :
    ∃ res : RetrievalResult,
      c5Engine.retrieve "hello" = .ok res ∧
      res.intent = extractQueryIntent "hello" ∧
      res.vector_results = c5Engine.retriever.search "hello" 3 ∧
      (∀ kw, extractQueryIntent "hello" = .byCategory kw →
        query_by_category c5Engine.kg kw = .ok res.kg_results) ∧
      (∀ kw, extractQueryIntent "hello" = .byRegion kw →
        query_by_region c5Engine.kg kw = .ok res.kg_results) ∧
      (∀ kw, extractQueryIntent "hello" = .byName kw →
        query_by_name c5Engine.kg kw = .ok res.kg_results) :=
  c5_retrieveDispatch c5Engine ⟨[], [], [], []⟩ "hello" rfl

/-- **C9**: the three graph lookups obey their match rules and caps —
by-name matches by substring containment on a stored name property with
at most 10 rows of full shape, by-category matches the category exactly
with at most 20 rows carrying only name and region keys, by-region
matches by substring containment on the stored region with at most 20
rows carrying name, category and region keys. -/
theorem c9_graphLookupContracts (db : GraphDB) (name category region : String) :
    (∃ rows, query_by_name (mkKnowledgeGraph (some db)) name = .ok rows ∧
      rows.length ≤ 10 ∧
      ∀ r ∈ rows, ∃ it ∈ db.items, nameMatches name it = true ∧
        r = { rName := some (propVal it.name), rCategory := some (propVal it.category),
              rRegion := some (propVal it.region), rOrg := some (propVal it.org) }) ∧
    (∃ rows, query_by_category (mkKnowledgeGraph (some db)) category = .ok rows ∧
      rows.length ≤ 20 ∧
      ∀ r ∈ rows, ∃ it ∈ db.items, it.category = some category ∧
        r = { rName := some (propVal it.name), rCategory := Option.none,
              rRegion := some (propVal it.region), rOrg := Option.none }) ∧
    (∃ rows, query_by_region (mkKnowledgeGraph (some db)) region = .ok rows ∧
      rows.length ≤ 20 ∧
      ∀ r ∈ rows, ∃ it ∈ db.items, optContains it.region region = true ∧
        r = { rName := some (propVal it.name), rCategory := some (propVal it.category),
              rRegion := some (propVal it.region), rOrg := Option.none }) := by
  refine ⟨⟨_, rfl, ?_, ?_⟩, ⟨_, rfl, ?_, ?_⟩, ⟨_, rfl, ?_, ?_⟩⟩
  · simp only [List.length_map, List.length_take]
    exact min_le_left 10 (db.items.filter (nameMatches name)).length
  · intro r hr
    obtain ⟨it, hit, heq⟩ := List.mem_map.mp hr
    have hmem := List.take_subset 10 _ hit
    exact ⟨it, (List.mem_filter.mp hmem).1, (List.mem_filter.mp hmem).2, heq.symm⟩
  · simp only [List.length_map, List.length_take]
    exact min_le_left 20 (db.items.filter (fun it => it.category == some category)).length
  · intro r hr
    obtain ⟨it, hit, heq⟩ := List.mem_map.mp hr
    have hmem := List.take_subset 20 _ hit
    refine ⟨it, (List.mem_filter.mp hmem).1, ?_, heq.symm⟩
    simpa using (List.mem_filter.mp hmem).2
  · simp only [List.length_map, List.length_take]
    exact min_le_left 20 (db.items.filter (fun it => optContains it.region region)).length
  · intro r hr
    obtain ⟨it, hit, heq⟩ := List.mem_map.mp hr
    have hmem := List.take_subset 20 _ hit
    exact ⟨it, (List.mem_filter.mp hmem).1, (List.mem_filter.mp hmem).2, heq.symm⟩

def c1Retrieval : RetrievalResult :=
  { intent := .byName "春节", kg_results := [],
    vector_results := [(⟨"春节简介", "春节是中国的传统节日"⟩, (3 : ℚ)/10)] }

/-- **C1 counterexample**: a retrieval whose vector-result list is
non-empty but all of whose scores are ≤ 0.5 still produces a context
containing the 相关文档 section header — the code appends the header
before the per-hit threshold test, refuting the claim that the section is
omitted entirely. -/
theorem c1_counterexample :
    c1Retrieval.vector_results ≠ [] ∧
    c1Retrieval.vector_results.all (fun p => decide (p.2 ≤ 1/2)) = true ∧
    strIn "【相关文档】" (generate_context c1Retrieval) = true := by
  have h : generate_context c1Retrieval = "\n【相关文档】" := by
    norm_num [generate_context, c1Retrieval, kgContextParts, vecContextParts,
      vecBullet, List.filterMap]
    rfl
  refine ⟨by simp [c1Retrieval], by norm_num [c1Retrieval], ?_⟩
  rw [h]
  decide

/-- **C1 amended**: when every vector score is ≤ 0.5 (and the list is
non-empty) the context still carries the bare 相关文档 section header but
no document bullet line at all; each pair with score > 0.5 renders as a
bullet line of the title and the first 500 characters of content inside
that section. -/
theorem c1_headerStaysBulletsGated (r : RetrievalResult)
    (hne : r.vector_results ≠ []) :
    ((∀ p ∈ r.vector_results, p.2 ≤ 1/2) →
      generate_context r =
        String.intercalate "\n" (kgContextParts r.kg_results ++ ["\n【相关文档】"])) ∧
    (∀ p ∈ r.vector_results, (1 : ℚ)/2 < p.2 →
      ("- " ++ p.1.title ++ ": " ++ p.1.content.take 500 ++ "...") ∈
        vecContextParts r.vector_results) := by
  have hvec : r.vector_results.isEmpty = false := by
    simpa [List.isEmpty_iff] using hne
  have hv : vecContextParts r.vector_results = "\n【相关文档】" ::
      r.vector_results.filterMap
        (fun p => if (1 : ℚ)/2 < p.2 then some (vecBullet p) else none) := by
    simp only [vecContextParts, hvec, Bool.false_eq_true, if_false]
  constructor
  · intro hall
    have hfm : r.vector_results.filterMap
        (fun p => if (1 : ℚ)/2 < p.2 then some (vecBullet p) else none) = [] := by
      rw [List.filterMap_eq_nil_iff]
      intro p hp
      rw [if_neg (not_lt.mpr (hall p hp))]
    rw [generate_context, hv, hfm]
  · intro p hp hgt
    rw [hv]
    refine List.mem_cons_of_mem _ (List.mem_filterMap.mpr ⟨p, hp, ?_⟩)
    rw [if_pos hgt]
    rfl

theorem c1_witness :
    generate_context c1Retrieval =
      String.intercalate "\n"
        (kgContextParts c1Retrieval.kg_results ++ ["\n【相关文档】"]) := by
  apply (c1_headerStaysBulletsGated c1Retrieval (by simp [c1Retrieval])).1
  intro p hp
  simp only [c1Retrieval, List.mem_singleton] at hp
  rw [hp]
  norm_num

def c4Retriever : VectorRetriever :=
  { index := some ⟨[[(3 : ℚ)/5, 4/5]]⟩,
    documents := [⟨"龙井茶", "绿茶的代表"⟩],
    embedModel := some fun _ => [(3 : ℚ)/5, 4/5] }

/-- **C4 counterexample**: searching a built index holding one unit-norm
vector with `top_k = 3` returns the FAISS padding entries as well — their
label `-1` passes the `idx < len(documents)` guard and subscripts the
document list from the end — so the single document appears three times
(duplicate identities) and the sentinel score `-FLT_MAX` lies far outside
`[-1, 1]`. -/
theorem c4_counterexample :
    c4Retriever.search "茶" 3 =
      [(⟨"龙井茶", "绿茶的代表"⟩, 1), (⟨"龙井茶", "绿茶的代表"⟩, -FLT_MAX),
       (⟨"龙井茶", "绿茶的代表"⟩, -FLT_MAX)] ∧
    ¬ ((c4Retriever.search "茶" 3).map Prod.fst).Nodup ∧
    (-FLT_MAX : ℚ) < -1 := by
  have h : c4Retriever.search "茶" 3 =
      [(⟨"龙井茶", "绿茶的代表"⟩, 1), (⟨"龙井茶", "绿茶的代表"⟩, -FLT_MAX),
       (⟨"龙井茶", "绿茶的代表"⟩, -FLT_MAX)] := by
    norm_num [c4Retriever, VectorRetriever.search, faissSearch, scoredOf, dot,
      pyGet, List.insertionSort, List.orderedInsert, List.range_succ,
      List.filter, List.replicate, FLT_MAX]
  refine ⟨h, ?_, by norm_num [FLT_MAX]⟩
  rw [h]
  decide

theorem mem_sortedTake (vecs : List (List ℚ)) (q : List ℚ) (k : Nat)
    (p : Int × ℚ)
    (hp : p ∈ ((scoredOf ⟨vecs⟩ q).insertionSort scoreGE).take k) :
    ∃ i : Nat, i < vecs.length ∧ p = ((i : Int), dot q (vecs.getD i [])) := by
  have hp2 : p ∈ scoredOf ⟨vecs⟩ q :=
    (List.perm_insertionSort scoreGE _).mem_iff.mp (List.take_subset _ _ hp)
  simp only [scoredOf] at hp2
  obtain ⟨i, hi, rfl⟩ := List.mem_map.mp hp2
  exact ⟨i, List.mem_range.mp hi, rfl⟩

theorem sortedTake_length (vecs : List (List ℚ)) (q : List ℚ) (k : Nat)
    (hk : k ≤ vecs.length) :
    (((scoredOf ⟨vecs⟩ q).insertionSort scoreGE).take k).length = k := by
  rw [List.length_take, (List.perm_insertionSort scoreGE _).length_eq]
  simp only [scoredOf, List.length_map, List.length_range]
  exact Nat.min_eq_left hk

theorem faissSearch_of_le (vecs : List (List ℚ)) (q : List ℚ) (k : Nat)
    (hk : k ≤ vecs.length) :
    faissSearch ⟨vecs⟩ q k =
      ((scoredOf ⟨vecs⟩ q).insertionSort scoreGE).take k := by
  simp only [faissSearch, sortedTake_length vecs q k hk, Nat.sub_self,
    List.replicate_zero, List.append_nil]

theorem search_built_eq (vecs : List (List ℚ)) (docs : List Document)
    (emb : String → List ℚ) (q : String) (k : Nat)
    (hlen : vecs.length = docs.length) (hk : k ≤ vecs.length) :
    VectorRetriever.search ⟨some ⟨vecs⟩, docs, some emb⟩ q k =
      (((scoredOf ⟨vecs⟩ (emb q)).insertionSort scoreGE).take k).map
        fun p => (pyGet docs p.1, p.2) := by
  simp only [VectorRetriever.search]
  rw [faissSearch_of_le vecs (emb q) k hk]
  congr 1
  rw [List.filter_eq_self]
  intro p hp
  obtain ⟨i, hi, rfl⟩ := mem_sortedTake vecs (emb q) k p hp
  simp only [decide_eq_true_eq]
  exact_mod_cast hlen ▸ hi

/-- **C4 amended**: an unbuilt index searches to the empty list, and on a
built index holding at least `top_k` unit-norm vectors (with the document
list matching the index) `search` returns exactly `top_k` pairs, sorted
descending by score, drawn from pairwise-distinct document positions,
with every score in `[-1, 1]`.  (When the index holds fewer than `top_k`
vectors the FAISS padding labelled `-1` slips past the bounds guard and
aliases the last document — see the counterexample.) -/
theorem c4_searchContract :
    (∀ (docs : List Document) (emb : Option (String → List ℚ)) (q : String)
        (k : Nat),
      VectorRetriever.search ⟨Option.none, docs, emb⟩ q k = []) ∧
    (∀ (vecs : List (List ℚ)) (docs : List Document) (emb : String → List ℚ)
        (q : String) (k : Nat),
      vecs.length = docs.length →
      k ≤ vecs.length →
      (∀ v ∈ vecs, dot v v = 1) →
      dot (emb q) (emb q) = 1 →
      (VectorRetriever.search ⟨some ⟨vecs⟩, docs, some emb⟩ q k).length = k ∧
      (VectorRetriever.search ⟨some ⟨vecs⟩, docs, some emb⟩ q k).Pairwise
        (fun a b => b.2 ≤ a.2) ∧
      (∀ p ∈ VectorRetriever.search ⟨some ⟨vecs⟩, docs, some emb⟩ q k,
        -1 ≤ p.2 ∧ p.2 ≤ 1) ∧
      (∃ ids : List Nat, ids.Nodup ∧ (∀ i ∈ ids, i < docs.length) ∧
        (VectorRetriever.search ⟨some ⟨vecs⟩, docs, some emb⟩ q k).map Prod.fst =
          ids.map fun i => docs.getD i default)) := by
  constructor
  · intro docs emb q k
    cases emb <;> rfl
  · intro vecs docs emb q k hlen hk hnorm hq
    have hse := search_built_eq vecs docs emb q k hlen hk
    have hsorted : (((scoredOf ⟨vecs⟩ (emb q)).insertionSort scoreGE).take k).Pairwise
        scoreGE :=
      (List.sorted_insertionSort scoreGE (scoredOf ⟨vecs⟩ (emb q))).sublist
        (List.take_sublist _ _)
    refine ⟨?_, ?_, ?_, ?_⟩
    · rw [hse, List.length_map]
      exact sortedTake_length vecs (emb q) k hk
    · rw [hse, List.pairwise_map]
      exact hsorted
    · intro p hp
      rw [hse] at hp
      obtain ⟨p2, hp2, rfl⟩ := List.mem_map.mp hp
      obtain ⟨i, hi, rfl⟩ := mem_sortedTake vecs (emb q) k p2 hp2
      have hv : vecs.getD i [] ∈ vecs := by
        rw [List.getD_eq_getElem?_getD, List.getElem?_eq_getElem hi]
        exact List.getElem_mem hi
      exact dot_mem_unit (emb q) (vecs.getD i []) hq (hnorm _ hv)
    · refine ⟨(((scoredOf ⟨vecs⟩ (emb q)).insertionSort scoreGE).take k).map
        (fun p => p.1.toNat), ?_, ?_, ?_⟩
      · -- the chosen positional ids are pairwise distinct
        have hfst : (scoredOf ⟨vecs⟩ (emb q)).map Prod.fst =
            (List.range vecs.length).map (fun (i : Nat) => (i : Int)) := by
          simp only [scoredOf, List.map_map]
          rfl
        have hnd0 : ((List.range vecs.length).map (fun (i : Nat) => (i : Int))).Nodup :=
          List.Nodup.map (fun a b h => by exact_mod_cast h) (List.nodup_range _)
        have hnd1 : ((scoredOf ⟨vecs⟩ (emb q)).insertionSort scoreGE).map
            Prod.fst |>.Nodup := by
          rw [((List.perm_insertionSort scoreGE _).map Prod.fst).nodup_iff]
          rw [hfst]
          exact hnd0
        have hnd2 : ((((scoredOf ⟨vecs⟩ (emb q)).insertionSort scoreGE).take k).map
            Prod.fst).Nodup :=
          hnd1.sublist ((List.take_sublist _ _).map Prod.fst)
        have hres : ((((scoredOf ⟨vecs⟩ (emb q)).insertionSort scoreGE).take k).map
            (fun p => p.1.toNat)).map (fun (i : Nat) => (i : Int)) =
            (((scoredOf ⟨vecs⟩ (emb q)).insertionSort scoreGE).take k).map
              Prod.fst := by
          rw [List.map_map]
          apply List.map_congr_left
          intro p hp
          obtain ⟨i, _, rfl⟩ := mem_sortedTake vecs (emb q) k p hp
          simp
        have hnd3 : (((((scoredOf ⟨vecs⟩ (emb q)).insertionSort scoreGE).take k).map
            (fun p => p.1.toNat)).map (fun (i : Nat) => (i : Int))).Nodup := by
          rw [hres]
          exact hnd2
        exact List.Nodup.of_map _ hnd3
      · intro i hi
        obtain ⟨p, hp, rfl⟩ := List.mem_map.mp hi
        obtain ⟨j, hj, rfl⟩ := mem_sortedTake vecs (emb q) k p hp
        simpa using hlen ▸ hj
      · rw [hse, List.map_map, List.map_map]
        apply List.map_congr_left
        intro p hp
        obtain ⟨i, hi, rfl⟩ := mem_sortedTake vecs (emb q) k p hp
        simp only [Function.comp]
        rw [pyGet, if_neg (by exact_mod_cast Nat.not_lt.mpr (Nat.zero_le i))]

def c4Docs : List Document := [⟨"龙井茶", "绿茶"⟩, ⟨"铁观音", "乌龙茶"⟩]

def c4Vecs : List (List ℚ) := [[1, 0], [0, 1]]

theorem c4_witness :
    (VectorRetriever.search ⟨some ⟨c4Vecs⟩, c4Docs, some fun _ => [(1 : ℚ), 0]⟩
        "绿茶" 2).length = 2 ∧
    (VectorRetriever.search ⟨some ⟨c4Vecs⟩, c4Docs, some fun _ => [(1 : ℚ), 0]⟩
        "绿茶" 2).Pairwise (fun a b => b.2 ≤ a.2) ∧
    (∀ p ∈ VectorRetriever.search ⟨some ⟨c4Vecs⟩, c4Docs, some fun _ => [(1 : ℚ), 0]⟩
        "绿茶" 2, -1 ≤ p.2 ∧ p.2 ≤ 1) ∧
    (∃ ids : List Nat, ids.Nodup ∧ (∀ i ∈ ids, i < c4Docs.length) ∧
      (VectorRetriever.search ⟨some ⟨c4Vecs⟩, c4Docs, some fun _ => [(1 : ℚ), 0]⟩
          "绿茶" 2).map Prod.fst = ids.map fun i => c4Docs.getD i default) :=
  c4_searchContract.2 c4Vecs c4Docs (fun _ => [(1 : ℚ), 0]) "绿茶" 2
    (by norm_num [c4Vecs, c4Docs])
    (by norm_num [c4Vecs])
    (by
      intro v hv
      simp only [c4Vecs, List.mem_cons, List.mem_singleton, List.not_mem_nil,
        or_false] at hv
      rcases hv with rfl | rfl <;> norm_num [dot, List.zipWith])
    (by norm_num [dot, List.zipWith])

theorem c3_witness :
    (mkKnowledgeGraph Option.none).driver = Option.none ∧
    (∃ m, query_by_name (mkKnowledgeGraph Option.none) "苗族古歌" =
      .error (.attributeError m)) ∧
    (∃ m, query_by_category (mkKnowledgeGraph Option.none) "民间文学" =
      .error (.attributeError m)) ∧
    (∃ m, query_by_region (mkKnowledgeGraph Option.none) "贵州" =
      .error (.attributeError m)) ∧
    (∃ m, get_statistics (mkKnowledgeGraph Option.none) =
      .error (.attributeError m)) ∧
    (∃ m, get_category_distribution (mkKnowledgeGraph Option.none) =
      .error (.attributeError m)) :=
  c3_amended "苗族古歌" "民间文学" "贵州"

def c9Db : GraphDB :=
  { items := [ { name := some "苗族古歌", nameZh := Option.none,
                 category := some "民间文学", region := some "贵州省",
                 org := some "非遗保护中心" } ],
    categoryNodes := ["民间文学"], regionNodes := ["贵州省"],
    orgNodes := ["非遗保护中心"] }

theorem c9_witness :
    (∃ rows, query_by_name (mkKnowledgeGraph (some c9Db)) "古歌" = .ok rows ∧
      rows.length ≤ 10 ∧
      ∀ r ∈ rows, ∃ it ∈ c9Db.items, nameMatches "古歌" it = true ∧
        r = { rName := some (propVal it.name), rCategory := some (propVal it.category),
              rRegion := some (propVal it.region), rOrg := some (propVal it.org) }) ∧
    (∃ rows, query_by_category (mkKnowledgeGraph (some c9Db)) "民间文学" = .ok rows ∧
      rows.length ≤ 20 ∧
      ∀ r ∈ rows, ∃ it ∈ c9Db.items, it.category = some "民间文学" ∧
        r = { rName := some (propVal it.name), rCategory := Option.none,
              rRegion := some (propVal it.region), rOrg := Option.none }) ∧
    (∃ rows, query_by_region (mkKnowledgeGraph (some c9Db)) "贵州" = .ok rows ∧
      rows.length ≤ 20 ∧
      ∀ r ∈ rows, ∃ it ∈ c9Db.items, optContains it.region "贵州" = true ∧
        r = { rName := some (propVal it.name), rCategory := some (propVal it.category),
              rRegion := some (propVal it.region), rOrg := Option.none }) :=
  c9_graphLookupContracts c9Db "古歌" "民间文学" "贵州"

end RagSpec
